import Mathlib

/-!
Shallow embedding of `train.py` (keras-YOLOv3-model-set training driver).

The script `train.py` parses CLI arguments and then, in `main`, performs a
fixed sequence of steps: compute the freeze level, build the callback list,
split the dataset, check the model input shape, dispatch on the model-type
string prefix, build the optimizer and the train model (optionally inside a
multi-GPU distribution strategy), run a frozen-transfer `fit`, adjust the
optimizer and callbacks, unfreeze all layers and recompile, run a fine-tune
`fit`, and finally save (and optionally strip/quantize) the model.

External calls (`get_classes`, `get_anchors`, `get_dataset`, `get_optimizer`,
`get_*_train_model`, keras `fit`/`save`, TFLite conversion) read files or run
the ML framework; they are modelled as opaque inputs or as records of the
arguments the script passes to them.  Python ints are modelled as `Int`
(Python ints are unbounded), Python floats as exact rationals `Rat`, Python
`None`-able strings as `Option String`.
-/

/-- Python truthiness of an optional string (`if s:`): `None` and the empty
string are falsy, every other string is truthy. -/
def pyTruthyStr : Option String → Bool
  | none => false
  | some s => !(s == "")

/-- Python `str.startswith(p)`: `p` is a prefix of the string. -/
def pyStartswith (s p : String) : Bool :=
  p.data.isPrefixOf s.data

/-- Python `int()` applied to a float/rational: truncation toward zero. -/
def pyInt (q : ℚ) : ℤ :=
  if q < 0 then ⌈q⌉ else ⌊q⌋

/-- Python floor division `//` on ints. -/
def pyFloorDiv (a b : ℤ) : ℤ :=
  Int.fdiv a b

/-- Resolve a Python slice endpoint `i` against a list of length `len`:
negative indices count from the end, and the result is clamped to
`[0, len]`. -/
def pySliceIdx (len : ℕ) (i : ℤ) : ℕ :=
  (max 0 (min (len : ℤ) (if i < 0 then i + len else i))).toNat

/-- Python slice `l[:n]`. -/
def pyTake (l : List α) (n : ℤ) : List α :=
  l.take (pySliceIdx l.length n)

/-- Python slice `l[n:]`. -/
def pyDrop (l : List α) (n : ℤ) : List α :=
  l.drop (pySliceIdx l.length n)

/-- Python `list.insert(-1, x)`: insert `x` just before the last element
(for the empty list, `x` becomes the only element, as in Python). -/
def insertBeforeLast (l : List α) (x : α) : List α :=
  l.take (l.length - 1) ++ x :: l.drop (l.length - 1)

/-- `os.path.join` for the two-component paths used by `train.py`. -/
def osPathJoin (a b : String) : String :=
  a ++ "/" ++ b

/-- The parsed command-line arguments of `train.py` (the `args` namespace
after `model_input_shape` has been parsed into a `(height, width)` pair).
Fields not read by `main` or by the helpers under verification are omitted
from the claims but kept here where `main` touches them. -/
structure Args where
  model_type : String
  model_input_shape : ℤ × ℤ
  weights_path : Option String
  val_annotation_file : Option String
  val_split : ℚ
  batch_size : ℤ
  optimizer : String
  learning_rate : ℚ
  average_type : Option String
  decay_type : Option String
  transfer_epoch : ℤ
  freeze_level : Option ℤ
  init_epoch : ℤ
  total_epoch : ℤ
  multiscale : Bool
  rescale_interval : ℤ
  enhance_augment : Option String
  label_smoothing : ℚ
  multi_anchor_assign : Bool
  elim_grid_sense : Bool
  data_shuffle : Bool
  gpu_num : ℤ
  model_pruning : Bool
  quantize_aware_training : Bool
  eval_online : Bool
  eval_epoch_interval : ℤ
  save_eval_checkpoint : Bool
deriving DecidableEq

/-- The model-family constructor selected by the dispatch in `main`. -/
inductive ModelBuilder
  | get_yolo5_train_model
  | get_yolo3_train_model
  | get_yolo2_train_model
deriving DecidableEq

/-- The data-generator function selected by the dispatch in `main`. -/
inductive DataGen
  | yolo5_data_generator_wrapper
  | yolo3_data_generator_wrapper
  | yolo2_data_generator_wrapper
deriving DecidableEq

/-- The callback objects `main` builds; each constructor stands for one of
the callback instances created in `main` (their constructor arguments are
fixed and not claim-relevant, so they are modelled as atoms). -/
inductive Callback
  | logging
  | checkpoint
  | reduce_lr
  | early_stopping
  | terminate_on_nan
  | checkpoint_clean
  | checkpoint_q
  | eval_callback
  | shuffle_callback
  | update_pruning_step
  | pruning_summaries
  | avg_checkpoint
deriving DecidableEq

/-- The configuration `get_optimizer` is called with (the call is external;
we record its arguments). `decay_steps = none` models the call that omits
the `decay_steps` keyword. -/
structure OptimizerCfg where
  optName : String
  lr : ℚ
  average_type : Option String
  decay_type : Option String
  decay_steps : Option ℤ
deriving DecidableEq

/-- The errors `main` can raise before reaching the external training calls:
the input-shape `assert` and the unsupported-model-type `ValueError`. -/
inductive PyErr
  | assertionError (msg : String)
  | valueError (msg : String)
deriving DecidableEq

/-- The freeze level computed at the top of `main`: default 0 when a truthy
`--weights_path` is given, else 1; overridden by `--freeze_level` when that
option is not `None`. -/
def freezeLevelOf (a : Args) : ℤ :=
  let freeze_level : ℤ := if pyTruthyStr a.weights_path then 0 else 1
  match a.freeze_level with
  | some f => f
  | none => freeze_level

/-- The callback list built at lines 92-116 of `train.py`:
`[logging, checkpoint, reduce_lr, early_stopping, terminate_on_nan,
checkpoint_clean]`, with `checkpoint_q` appended when
`--quantize_aware_training` is set. -/
def baseCallbacks (a : Args) : List Callback :=
  let cbs : List Callback :=
    [.logging, .checkpoint, .reduce_lr, .early_stopping, .terminate_on_nan, .checkpoint_clean]
  if a.quantize_aware_training then cbs ++ [.checkpoint_q] else cbs

/-- Dataset split (lines 119-128 of `train.py`).  `get_dataset` reads the
files; its two outputs are the parameters `trainLines` and `valLines`
(`valLines` is only consulted when `--val_annotation_file` is truthy).
Returns `(dataset, num_train, num_val)`. -/
def datasetSplit (a : Args) (trainLines valLines : List String) :
    List String × ℤ × ℤ :=
  if pyTruthyStr a.val_annotation_file then
    (trainLines ++ valLines, (trainLines.length : ℤ), (valLines.length : ℤ))
  else
    let num_val : ℤ := pyInt ((trainLines.length : ℚ) * a.val_split)
    (trainLines, (trainLines.length : ℤ) - num_val, num_val)

/-- Multiscale interval assignment (lines 131-134). -/
def rescaleIntervalOf (a : Args) : ℤ :=
  if a.multiscale then a.rescale_interval else -1

/-- The model-type dispatch of `main` (lines 141-186): an if/elif chain on
string prefixes of `args.model_type`, yielding the model constructor, the
data-generator wrapper and the `tiny_version` flag, or `none` for the
`raise ValueError('Unsupported model type')` branch. -/
def dispatchModelType (t : String) : Option (ModelBuilder × DataGen × Bool) :=
  if pyStartswith t "scaled_yolo4_" || pyStartswith t "yolo5_" then
    some (.get_yolo5_train_model, .yolo5_data_generator_wrapper, false)
  else if pyStartswith t "yolo3_" || pyStartswith t "yolo4_" then
    some (.get_yolo3_train_model, .yolo3_data_generator_wrapper, false)
  else if pyStartswith t "tiny_yolo3_" || pyStartswith t "tiny_yolo4_" then
    some (.get_yolo3_train_model, .yolo3_data_generator_wrapper, true)
  else if pyStartswith t "yolo2_" || pyStartswith t "tiny_yolo2_" then
    some (.get_yolo2_train_model, .yolo2_data_generator_wrapper, false)
  else
    none

/-- The dispatch as `main` performs it: it inspects only `args.model_type`. -/
def selectedFamily (a : Args) : Option (ModelBuilder × DataGen × Bool) :=
  dispatchModelType a.model_type

/-- The callback list in effect at the first `fit` call: the base list, with
`eval_callback` inserted before the last element when `--eval_online`
(line 191), `shuffle_callback` appended when `--data_shuffle` (line 196),
and the two pruning callbacks appended when `--model_pruning` (line 202). -/
def callbacksForFit1 (a : Args) : List Callback :=
  let cbs := baseCallbacks a
  let cbs := if a.eval_online then insertBeforeLast cbs .eval_callback else cbs
  let cbs := if a.data_shuffle then cbs ++ [.shuffle_callback] else cbs
  if a.model_pruning then cbs ++ [.update_pruning_step, .pruning_summaries] else cbs

/-- `pruning_end_step` (line 199): `np.ceil(1.0 * num_train / batch_size)`
cast to int, times `total_epoch`.  The float division is modelled as exact
rational division (the int32 cast is not modelled; the claims do not touch
overflow). -/
def pruningEndStep (a : Args) (num_train : ℤ) : ℤ :=
  ⌈(num_train : ℚ) / (a.batch_size : ℚ)⌉ * a.total_epoch

/-- The optimizer built before the first stage (line 205):
`get_optimizer(args.optimizer, args.learning_rate, average_type=None,
decay_type=None)`. -/
def optimizer1 (a : Args) : OptimizerCfg :=
  { optName := a.optimizer
    lr := a.learning_rate
    average_type := none
    decay_type := none
    decay_steps := none }

/-- `decay_steps` for the rebuilt optimizer (lines 266-267):
`max(1, num_train // batch_size) * (total_epoch - init_epoch -
transfer_epoch)`. -/
def decayStepsOf (a : Args) (num_train : ℤ) : ℤ :=
  max 1 (pyFloorDiv num_train a.batch_size) *
    (a.total_epoch - a.init_epoch - a.transfer_epoch)

/-- The optimizer in effect for the recompilation before the second `fit`
(lines 245-268): rebuilt with the decay/average options exactly when
`args.decay_type or args.average_type` is truthy, otherwise the variable
still holds the stage-one optimizer. -/
def optimizerForFit2 (a : Args) (num_train : ℤ) : OptimizerCfg :=
  if pyTruthyStr a.decay_type || pyTruthyStr a.average_type then
    { optName := a.optimizer
      lr := a.learning_rate
      average_type := a.average_type
      decay_type := a.decay_type
      decay_steps := some (decayStepsOf a num_train) }
  else
    optimizer1 a

/-- The callback list in effect at the second `fit` call (lines 245-264):
when `args.decay_type or args.average_type` is truthy, `reduce_lr` is
removed if `decay_type` is set, and if `average_type` is `'ema'` or `'swa'`
the `checkpoint` callback is removed and `avg_checkpoint` is inserted before
the last element; otherwise the list is unchanged.  `List.erase` matches
Python `list.remove` (first occurrence); the removed callbacks are always
present, so Python's `ValueError` branch of `remove` is unreachable. -/
def callbacksForFit2 (a : Args) : List Callback :=
  let cbs := callbacksForFit1 a
  if pyTruthyStr a.decay_type || pyTruthyStr a.average_type then
    let cbs := if pyTruthyStr a.decay_type then cbs.erase .reduce_lr else cbs
    if a.average_type = some "ema" ∨ a.average_type = some "swa" then
      insertBeforeLast (cbs.erase .checkpoint) .avg_checkpoint
    else cbs
  else cbs

/-- The arguments of one `model.fit_generator` call in `main` (lines 229-240
and 287-298).  The `data_generator(...)` calls are external; the record
keeps the arguments the script passes to them (the fixed keyword arguments
`workers=1`, `use_multiprocessing=False`, `max_queue_size=10` are constants
in both calls and are not modelled). -/
structure FitCall where
  generator : DataGen
  train_lines : List String
  val_lines : List String
  batch_size : ℤ
  input_shape : ℤ × ℤ
  anchors : List (ℚ × ℚ)
  num_classes : ℤ
  enhance_augment : Option String
  rescale_interval : ℤ
  multi_anchor_assign : Bool
  steps_per_epoch : ℤ
  validation_steps : ℤ
  epochs : ℤ
  initial_epoch : ℤ
  callbacks : List Callback
deriving DecidableEq

/-- The first (frozen transfer) `fit` call (lines 224-240):
`initial_epoch = args.init_epoch`, `epochs = initial_epoch +
args.transfer_epoch`. -/
def fit1Call (a : Args) (anchors : List (ℚ × ℚ)) (num_classes : ℤ)
    (dataset : List String) (num_train num_val : ℤ) (gen : DataGen) : FitCall :=
  { generator := gen
    train_lines := pyTake dataset num_train
    val_lines := pyDrop dataset num_train
    batch_size := a.batch_size
    input_shape := a.model_input_shape
    anchors := anchors
    num_classes := num_classes
    enhance_augment := a.enhance_augment
    rescale_interval := rescaleIntervalOf a
    multi_anchor_assign := a.multi_anchor_assign
    steps_per_epoch := max 1 (pyFloorDiv num_train a.batch_size)
    validation_steps := max 1 (pyFloorDiv num_val a.batch_size)
    epochs := a.init_epoch + a.transfer_epoch
    initial_epoch := a.init_epoch
    callbacks := callbacksForFit1 a }

/-- The second (fine-tune) `fit` call (lines 285-298): `epochs =
args.total_epoch`, `initial_epoch` is the `epochs` variable of the first
stage, i.e. `args.init_epoch + args.transfer_epoch`. -/
def fit2Call (a : Args) (anchors : List (ℚ × ℚ)) (num_classes : ℤ)
    (dataset : List String) (num_train num_val : ℤ) (gen : DataGen) : FitCall :=
  { generator := gen
    train_lines := pyTake dataset num_train
    val_lines := pyDrop dataset num_train
    batch_size := a.batch_size
    input_shape := a.model_input_shape
    anchors := anchors
    num_classes := num_classes
    enhance_augment := a.enhance_augment
    rescale_interval := rescaleIntervalOf a
    multi_anchor_assign := a.multi_anchor_assign
    steps_per_epoch := max 1 (pyFloorDiv num_train a.batch_size)
    validation_steps := max 1 (pyFloorDiv num_val a.batch_size)
    epochs := a.total_epoch
    initial_epoch := a.init_epoch + a.transfer_epoch
    callbacks := callbacksForFit2 a }

/-- The unfreeze loop `for i in range(len(model.layers)):
model.layers[i].trainable = True` (lines 276-277 and 281-282), applied to
the list of per-layer `trainable` flags. -/
def setAllTrainable (layers : List Bool) : List Bool :=
  (List.range layers.length).foldl (fun ls i => ls.set i true) layers

/-- The state after the unfreeze-and-recompile step between the two `fit`
calls (lines 274-283): the same loop and `model.compile` run in both the
multi-GPU branch (inside `strategy.scope()`) and the single-GPU branch. -/
structure UnfreezeResult where
  in_strategy_scope : Bool
  layers : List Bool
  compiled_optimizer : OptimizerCfg
deriving DecidableEq

/-- The unfreeze-and-recompile step (lines 274-283), branching on
`args.gpu_num >= 2` exactly as the source does. -/
def unfreezeAndRecompile (a : Args) (num_train : ℤ) (layers : List Bool) :
    UnfreezeResult :=
  if 2 ≤ a.gpu_num then
    { in_strategy_scope := true
      layers := setAllTrainable layers
      compiled_optimizer := optimizerForFit2 a num_train }
  else
    { in_strategy_scope := false
      layers := setAllTrainable layers
      compiled_optimizer := optimizerForFit2 a num_train }

/-- The argument record of the `get_train_model(...)` call (lines 215 and
219); the call itself is external. -/
structure TrainModelArgs where
  model_type : String
  anchors : List (ℚ × ℚ)
  num_classes : ℤ
  quantize_aware_training : Bool
  weights_path : Option String
  freeze_level : ℤ
  optimizer : OptimizerCfg
  label_smoothing : ℚ
  elim_grid_sense : Bool
  model_pruning : Bool
  pruning_end_step : ℤ
deriving DecidableEq

/-- The device list `["/gpu:0", ..., "/gpu:{n-1}"]` built at line 210. -/
def devicesList (n : ℤ) : List String :=
  (List.range n.toNat).map (fun i => "/gpu:" ++ toString i)

/-- The model-construction step (lines 208-219): when `args.gpu_num >= 2` a
`MirroredStrategy` over `devicesList` is created and `get_train_model` is
called in its scope, otherwise no strategy is created; returns the optional
strategy device list and the `get_train_model` argument record. -/
def buildStep (a : Args) (anchors : List (ℚ × ℚ)) (num_classes : ℤ)
    (freeze_level : ℤ) (opt : OptimizerCfg) (pes : ℤ) :
    Option (List String) × TrainModelArgs :=
  if 2 ≤ a.gpu_num then
    (some (devicesList a.gpu_num),
      { model_type := a.model_type
        anchors := anchors
        num_classes := num_classes
        quantize_aware_training := a.quantize_aware_training
        weights_path := a.weights_path
        freeze_level := freeze_level
        optimizer := opt
        label_smoothing := a.label_smoothing
        elim_grid_sense := a.elim_grid_sense
        model_pruning := a.model_pruning
        pruning_end_step := pes })
  else
    (none,
      { model_type := a.model_type
        anchors := anchors
        num_classes := num_classes
        quantize_aware_training := a.quantize_aware_training
        weights_path := a.weights_path
        freeze_level := freeze_level
        optimizer := opt
        label_smoothing := a.label_smoothing
        elim_grid_sense := a.elim_grid_sense
        model_pruning := a.model_pruning
        pruning_end_step := pes })

/-- The persistence actions at the end of `main` (lines 300-307) and inside
`save_quantized_model` (lines 44-62): `strip_pruning` replaces the model,
`keras_save_model` is the `tf.keras.save_model` h5 write,
`tflite_uint8` is the uint8-quantized TFLite write, `model_save` is
`model.save`. -/
inductive SaveAction
  | strip_pruning
  | keras_save_model (path : String)
  | tflite_uint8 (path : String)
  | model_save (path : String)
deriving DecidableEq

/-- The file writes of `save_quantized_model(model, log_dir, epoch)`
(lines 44-62): an h5 model file `trained_{epoch}.h5` and a uint8 TFLite
file `trained_{epoch}_uint8.tflite`, both under `log_dir` (the submodel
extraction and input resize do not write files and are not modelled). -/
def saveQuantizedModel (log_dir : String) (epoch : String) : List SaveAction :=
  [ .keras_save_model (osPathJoin log_dir ("trained_" ++ epoch ++ ".h5")),
    .tflite_uint8 (osPathJoin log_dir ("trained_" ++ epoch ++ "_uint8.tflite")) ]

/-- The final persistence sequence (lines 300-307): strip pruning wrappers
first when `--model_pruning`, then either `save_quantized_model(...,
epoch='last')` when `--quantize_aware_training`, or a single
`model.save(log_dir/trained_final.h5)`. -/
def saveActions (a : Args) (log_dir : String) : List SaveAction :=
  (if a.model_pruning then [.strip_pruning] else []) ++
  (if a.quantize_aware_training then saveQuantizedModel log_dir "last"
   else [.model_save (osPathJoin log_dir "trained_final.h5")])

/-- Everything `main` has decided by the time it returns, for a run that
raises no error: the dispatch outcome, the dataset split, the strategy and
model-construction arguments, both `fit` calls, the unfreeze/recompile
state and the final save actions. -/
structure MainResult where
  fam : ModelBuilder
  gen : DataGen
  tiny_version : Bool
  dataset : List String
  num_train : ℤ
  num_val : ℤ
  strategy_devices : Option (List String)
  model_args : TrainModelArgs
  fit1 : FitCall
  unfreeze : UnfreezeResult
  fit2 : FitCall
  save_actions : List SaveAction
deriving DecidableEq

/-- The body of `main(args)` with external inputs made explicit:
`classNames` is the output of `get_classes`, `anchors` of `get_anchors`,
`trainLines`/`valLines` of the two `get_dataset` calls, and
`initialLayers` the per-layer `trainable` flags of the model returned by
`get_train_model`.  The sequencing follows the source: the callback list
and dataset split are computed first, then the input-shape `assert`
(line 138), then the model-type dispatch (lines 141-186) which may raise
`ValueError`; everything after the dispatch is recorded in `MainResult`. -/
def mainRun (a : Args) (classNames : List String) (anchors : List (ℚ × ℚ))
    (trainLines valLines : List String) (initialLayers : List Bool) :
    Except PyErr MainResult :=
  let log_dir := osPathJoin "logs" "000"
  let num_classes : ℤ := (classNames.length : ℤ)
  let freeze_level := freezeLevelOf a
  let split := datasetSplit a trainLines valLines
  let dataset := split.1
  let num_train := split.2.1
  let num_val := split.2.2
  if a.model_input_shape.1 % 32 = 0 ∧ a.model_input_shape.2 % 32 = 0 then
    match selectedFamily a with
    | none => .error (.valueError "Unsupported model type")
    | some (fam, gen, tiny) =>
      let pes := pruningEndStep a num_train
      let opt1 := optimizer1 a
      let built := buildStep a anchors num_classes freeze_level opt1 pes
      .ok { fam := fam
            gen := gen
            tiny_version := tiny
            dataset := dataset
            num_train := num_train
            num_val := num_val
            strategy_devices := built.1
            model_args := built.2
            fit1 := fit1Call a anchors num_classes dataset num_train num_val gen
            unfreeze := unfreezeAndRecompile a num_train initialLayers
            fit2 := fit2Call a anchors num_classes dataset num_train num_val gen
            save_actions := saveActions a log_dir }
  else
    .error (.assertionError "model_input_shape should be multiples of 32")

/-- Helper: folding `set i true` over `range n` on a list of length at least
`n` replaces the first `n` entries by `true`. -/
theorem foldl_set_true (n : ℕ) : ∀ l : List Bool, n ≤ l.length →
    (List.range n).foldl (fun ls i => ls.set i true) l =
      List.replicate n true ++ l.drop n := by
  induction n with
  | zero => intro l _; simp
  | succ n ih =>
    intro l h
    rw [List.range_succ, List.foldl_append, ih l (Nat.le_of_succ_le h)]
    simp only [List.foldl_cons, List.foldl_nil]
    have hn : n < l.length := h
    simp only [List.set_append, List.length_replicate, lt_irrefl, if_false,
      Nat.sub_self, List.replicate_succ', List.append_assoc, List.singleton_append]
    rw [List.drop_eq_getElem_cons hn]
    rfl

/-- The unfreeze loop sets every layer's `trainable` flag to `true`. -/
theorem setAllTrainable_eq (l : List Bool) :
    setAllTrainable l = List.replicate l.length true := by
  have h := foldl_set_true l.length l le_rfl
  simpa [setAllTrainable] using h

/-- C10: the effective freeze level uses `args.freeze_level` when given;
otherwise it is 0 when a pretrained `weights_path` is supplied (truthy) and
1 when it is absent. -/
theorem freeze_level_precedence (a : Args) :
    (∀ f : ℤ, a.freeze_level = some f → freezeLevelOf a = f)
    ∧ (a.freeze_level = none → pyTruthyStr a.weights_path = true →
        freezeLevelOf a = 0)
    ∧ (a.freeze_level = none → pyTruthyStr a.weights_path = false →
        freezeLevelOf a = 1) := by
  refine ⟨fun f hf => ?_, fun hn hw => ?_, fun hn hw => ?_⟩ <;>
    simp [freezeLevelOf, *]

/-- C2: the schedule is two sequential fit calls; the frozen transfer stage
runs from `init_epoch` to `init_epoch + transfer_epoch`, the fine-tune stage
from `init_epoch + transfer_epoch` to `total_epoch`; both use
`steps_per_epoch = max(1, num_train // batch_size)` and
`validation_steps = max(1, num_val // batch_size)`, so the stages are
contiguous and non-overlapping. -/
theorem two_stage_fit_schedule (a : Args) (anchors : List (ℚ × ℚ)) (nc : ℤ)
    (ds : List String) (nt nv : ℤ) (g : DataGen) :
    (fit1Call a anchors nc ds nt nv g).initial_epoch = a.init_epoch
    ∧ (fit1Call a anchors nc ds nt nv g).epochs = a.init_epoch + a.transfer_epoch
    ∧ (fit2Call a anchors nc ds nt nv g).initial_epoch =
        a.init_epoch + a.transfer_epoch
    ∧ (fit2Call a anchors nc ds nt nv g).epochs = a.total_epoch
    ∧ (fit1Call a anchors nc ds nt nv g).steps_per_epoch =
        max 1 (pyFloorDiv nt a.batch_size)
    ∧ (fit2Call a anchors nc ds nt nv g).steps_per_epoch =
        max 1 (pyFloorDiv nt a.batch_size)
    ∧ (fit1Call a anchors nc ds nt nv g).validation_steps =
        max 1 (pyFloorDiv nv a.batch_size)
    ∧ (fit2Call a anchors nc ds nt nv g).validation_steps =
        max 1 (pyFloorDiv nv a.batch_size)
    ∧ (fit1Call a anchors nc ds nt nv g).epochs =
        (fit2Call a anchors nc ds nt nv g).initial_epoch :=
  ⟨rfl, rfl, rfl, rfl, rfl, rfl, rfl, rfl, rfl⟩

/-- C3: between the two fit calls every layer's `trainable` attribute is set
to `true` and the model is recompiled (with the stage-two optimizer), and
this happens in both the multi-GPU branch (inside the strategy scope) and
the single-GPU branch. -/
theorem unfreeze_before_fine_tune (a : Args) (nt : ℤ) (layers : List Bool) :
    (unfreezeAndRecompile a nt layers).layers =
      List.replicate layers.length true
    ∧ (∀ b ∈ (unfreezeAndRecompile a nt layers).layers, b = true)
    ∧ (unfreezeAndRecompile a nt layers).compiled_optimizer =
        optimizerForFit2 a nt
    ∧ (unfreezeAndRecompile a nt layers).in_strategy_scope =
        decide (2 ≤ a.gpu_num) := by
  by_cases h : 2 ≤ a.gpu_num
  · simp only [unfreezeAndRecompile, if_pos h]
    refine ⟨setAllTrainable_eq layers, fun b hb => ?_, trivial, (decide_eq_true h).symm⟩
    rw [setAllTrainable_eq] at hb
    exact List.eq_of_mem_replicate hb
  · simp only [unfreezeAndRecompile, if_neg h]
    refine ⟨setAllTrainable_eq layers, fun b hb => ?_, trivial, (decide_eq_false h).symm⟩
    rw [setAllTrainable_eq] at hb
    exact List.eq_of_mem_replicate hb

/-- Helper: a nonnegative in-range slice endpoint resolves to itself. -/
theorem pySliceIdx_natCast (len n : ℕ) (h : n ≤ len) :
    pySliceIdx len (n : ℤ) = n := by
  unfold pySliceIdx
  rw [if_neg (by omega : ¬((n : ℤ) < 0))]
  omega

/-- Helper: slicing `l[:n]` at the length of the left part of an append
returns the left part. -/
theorem pyTake_append (tl vl : List α) :
    pyTake (tl ++ vl) (tl.length : ℤ) = tl := by
  unfold pyTake
  rw [List.length_append, pySliceIdx_natCast _ _ (by omega)]
  exact List.take_left tl vl

/-- Helper: slicing `l[n:]` at the length of the left part of an append
returns the right part. -/
theorem pyDrop_append (tl vl : List α) :
    pyDrop (tl ++ vl) (tl.length : ℤ) = vl := by
  unfold pyDrop
  rw [List.length_append, pySliceIdx_natCast _ _ (by omega)]
  exact List.drop_left tl vl

/-- C4: in both split modes `num_train + num_val` equals the length of the
combined dataset; without a val annotation file `num_val` is the floor of
`len(dataset) * val_split` (float arithmetic modelled as exact rationals)
and `num_train` the remainder; with a val annotation file the combined
dataset is the train list followed by the val list and the slices
`dataset[:num_train]` / `dataset[num_train:]` passed to the generators are
exactly those two lists. -/
theorem dataset_split_conservation (a : Args) (tl vl : List String) :
    (datasetSplit a tl vl).2.1 + (datasetSplit a tl vl).2.2 =
      ((datasetSplit a tl vl).1.length : ℤ)
    ∧ (pyTruthyStr a.val_annotation_file = false → 0 ≤ a.val_split →
        (datasetSplit a tl vl).2.2 = ⌊(tl.length : ℚ) * a.val_split⌋
        ∧ (datasetSplit a tl vl).2.1 =
            (tl.length : ℤ) - (datasetSplit a tl vl).2.2)
    ∧ (pyTruthyStr a.val_annotation_file = true →
        (datasetSplit a tl vl).1 = tl ++ vl
        ∧ (datasetSplit a tl vl).2.1 = (tl.length : ℤ)
        ∧ (datasetSplit a tl vl).2.2 = (vl.length : ℤ)
        ∧ pyTake (datasetSplit a tl vl).1 (datasetSplit a tl vl).2.1 = tl
        ∧ pyDrop (datasetSplit a tl vl).1 (datasetSplit a tl vl).2.1 = vl) := by
  refine ⟨?_, fun hf hs => ?_, fun ht => ?_⟩
  · by_cases h : pyTruthyStr a.val_annotation_file = true
    · simp only [datasetSplit, if_pos h]
      show (tl.length : ℤ) + (vl.length : ℤ) = ((tl ++ vl).length : ℤ)
      push_cast [List.length_append]
      ring
    · simp only [datasetSplit, if_neg h]
      show (tl.length : ℤ) - pyInt ((tl.length : ℚ) * a.val_split) +
        pyInt ((tl.length : ℚ) * a.val_split) = (tl.length : ℤ)
      ring
  · have h : ¬ pyTruthyStr a.val_annotation_file = true := by simp [hf]
    simp only [datasetSplit, if_neg h]
    refine ⟨?_, trivial⟩
    show pyInt ((tl.length : ℚ) * a.val_split) = ⌊(tl.length : ℚ) * a.val_split⌋
    have hq : (0 : ℚ) ≤ (tl.length : ℚ) * a.val_split :=
      mul_nonneg (by positivity) hs
    simp only [pyInt, if_neg (not_lt.mpr hq)]
  · simp only [datasetSplit, if_pos ht]
    exact ⟨trivial, trivial, trivial, pyTake_append tl vl, pyDrop_append tl vl⟩

/-- C5: after the fine-tune stage, pruning wrappers are stripped first when
`--model_pruning` is set; then exactly one of the two save paths runs:
with `--quantize_aware_training` the model is written as
`trained_last.h5` plus a uint8 TFLite file under the log directory (and
`model.save` never runs), otherwise it is saved once to
`log_dir/trained_final.h5` (and no quantized files are written). -/
theorem final_model_persistence (a : Args) (d : String) :
    (a.model_pruning = true → (saveActions a d).head? = some .strip_pruning)
    ∧ (a.model_pruning = false → SaveAction.strip_pruning ∉ saveActions a d)
    ∧ (a.quantize_aware_training = true →
        SaveAction.keras_save_model (osPathJoin d "trained_last.h5") ∈ saveActions a d
        ∧ SaveAction.tflite_uint8 (osPathJoin d "trained_last_uint8.tflite") ∈
            saveActions a d
        ∧ ∀ p, SaveAction.model_save p ∉ saveActions a d)
    ∧ (a.quantize_aware_training = false →
        SaveAction.model_save (osPathJoin d "trained_final.h5") ∈ saveActions a d
        ∧ (∀ p, SaveAction.keras_save_model p ∉ saveActions a d)
        ∧ ∀ p, SaveAction.tflite_uint8 p ∉ saveActions a d) := by
  by_cases hp : a.model_pruning <;> by_cases hq : a.quantize_aware_training <;>
    simp [saveActions, saveQuantizedModel, hp, hq]

/-- C8: the distribution strategy is governed solely by `gpu_num`: with
`gpu_num >= 2` the strategy's device list is exactly `/gpu:0` through
`/gpu:{gpu_num-1}`, with `gpu_num <= 1` no strategy is created, and the
`get_train_model` argument record is the same in both branches. -/
theorem multi_gpu_strategy_selection (a : Args) (anchors : List (ℚ × ℚ))
    (nc fl : ℤ) (opt : OptimizerCfg) (pes : ℤ) :
    (2 ≤ a.gpu_num →
      (buildStep a anchors nc fl opt pes).1 = some (devicesList a.gpu_num))
    ∧ (a.gpu_num ≤ 1 → (buildStep a anchors nc fl opt pes).1 = none)
    ∧ (devicesList a.gpu_num).length = a.gpu_num.toNat
    ∧ (∀ i : ℕ, i < a.gpu_num.toNat →
        (devicesList a.gpu_num)[i]? = some ("/gpu:" ++ toString i))
    ∧ (buildStep a anchors nc fl opt pes).2 =
        { model_type := a.model_type
          anchors := anchors
          num_classes := nc
          quantize_aware_training := a.quantize_aware_training
          weights_path := a.weights_path
          freeze_level := fl
          optimizer := opt
          label_smoothing := a.label_smoothing
          elim_grid_sense := a.elim_grid_sense
          model_pruning := a.model_pruning
          pruning_end_step := pes } := by
  refine ⟨fun h => by simp [buildStep, if_pos h], fun h => ?_, ?_, fun i hi => ?_, ?_⟩
  · rw [buildStep, if_neg (by omega)]
  · simp [devicesList]
  · simp [devicesList, List.getElem?_map, List.getElem?_range, hi]
  · by_cases h : 2 ≤ a.gpu_num
    · simp [buildStep, if_pos h]
    · rw [buildStep, if_neg h]

/-- C1: the model family, data generator and tiny-version flag are selected
by testing string prefixes of `model_type` in the source order
(`scaled_yolo4_`/`yolo5_`, then `yolo3_`/`yolo4_`, then
`tiny_yolo3_`/`tiny_yolo4_`, then `yolo2_`/`tiny_yolo2_`), and the
selection made in `main` depends on no argument other than `model_type`. -/
theorem dispatch_by_model_type_order (t : String) (a₁ a₂ : Args) :
    ((pyStartswith t "scaled_yolo4_" || pyStartswith t "yolo5_") = true →
      dispatchModelType t =
        some (.get_yolo5_train_model, .yolo5_data_generator_wrapper, false))
    ∧ ((pyStartswith t "scaled_yolo4_" || pyStartswith t "yolo5_") = false →
       (pyStartswith t "yolo3_" || pyStartswith t "yolo4_") = true →
      dispatchModelType t =
        some (.get_yolo3_train_model, .yolo3_data_generator_wrapper, false))
    ∧ ((pyStartswith t "scaled_yolo4_" || pyStartswith t "yolo5_") = false →
       (pyStartswith t "yolo3_" || pyStartswith t "yolo4_") = false →
       (pyStartswith t "tiny_yolo3_" || pyStartswith t "tiny_yolo4_") = true →
      dispatchModelType t =
        some (.get_yolo3_train_model, .yolo3_data_generator_wrapper, true))
    ∧ ((pyStartswith t "scaled_yolo4_" || pyStartswith t "yolo5_") = false →
       (pyStartswith t "yolo3_" || pyStartswith t "yolo4_") = false →
       (pyStartswith t "tiny_yolo3_" || pyStartswith t "tiny_yolo4_") = false →
       (pyStartswith t "yolo2_" || pyStartswith t "tiny_yolo2_") = true →
      dispatchModelType t =
        some (.get_yolo2_train_model, .yolo2_data_generator_wrapper, false))
    ∧ (a₁.model_type = a₂.model_type → selectedFamily a₁ = selectedFamily a₂) := by
  refine ⟨fun h1 => ?_, fun h1 h2 => ?_, fun h1 h2 h3 => ?_, fun h1 h2 h3 h4 => ?_,
    fun h => ?_⟩ <;>
    simp [dispatchModelType, selectedFamily, *]

/-- C6: `main` raises `ValueError('Unsupported model type')` exactly for the
model types matching none of the eight recognized prefixes, and it does so
before any model construction or fit call (the error aborts `main`, so no
`MainResult` is produced); for a matching model type the dispatch raises no
error and `main` runs to completion. -/
theorem unsupported_model_type_error (a : Args) (cn : List String)
    (anchors : List (ℚ × ℚ)) (tl vl : List String) (ly : List Bool)
    (h32 : a.model_input_shape.1 % 32 = 0 ∧ a.model_input_shape.2 % 32 = 0) :
    (dispatchModelType a.model_type = none ↔
      ¬(pyStartswith a.model_type "scaled_yolo4_" = true
        ∨ pyStartswith a.model_type "yolo5_" = true
        ∨ pyStartswith a.model_type "yolo3_" = true
        ∨ pyStartswith a.model_type "yolo4_" = true
        ∨ pyStartswith a.model_type "tiny_yolo3_" = true
        ∨ pyStartswith a.model_type "tiny_yolo4_" = true
        ∨ pyStartswith a.model_type "yolo2_" = true
        ∨ pyStartswith a.model_type "tiny_yolo2_" = true))
    ∧ (dispatchModelType a.model_type = none →
        mainRun a cn anchors tl vl ly =
          .error (.valueError "Unsupported model type"))
    ∧ (dispatchModelType a.model_type ≠ none →
        ∃ r, mainRun a cn anchors tl vl ly = .ok r) := by
  refine ⟨?_, fun hd => ?_, fun hd => ?_⟩
  · cases h1 : pyStartswith a.model_type "scaled_yolo4_" <;>
    cases h2 : pyStartswith a.model_type "yolo5_" <;>
    cases h3 : pyStartswith a.model_type "yolo3_" <;>
    cases h4 : pyStartswith a.model_type "yolo4_" <;>
    cases h5 : pyStartswith a.model_type "tiny_yolo3_" <;>
    cases h6 : pyStartswith a.model_type "tiny_yolo4_" <;>
    cases h7 : pyStartswith a.model_type "yolo2_" <;>
    cases h8 : pyStartswith a.model_type "tiny_yolo2_" <;>
      simp [dispatchModelType, h1, h2, h3, h4, h5, h6, h7, h8]
  · simp only [mainRun, selectedFamily]
    rw [if_pos h32, hd]
  · obtain ⟨v, hv⟩ := Option.ne_none_iff_exists'.mp hd
    obtain ⟨fam, gen, tiny⟩ := v
    cases hm : mainRun a cn anchors tl vl ly with
    | ok r => exact ⟨r, rfl⟩
    | error e =>
      exfalso
      simp only [mainRun, selectedFamily] at hm
      rw [if_pos h32, hv] at hm
      exact absurd hm (by simp)

/-- C9: for every parsed input shape, `main` fails with the assertion
message `model_input_shape should be multiples of 32` when either dimension
is not a multiple of 32, before any dispatch, model construction or fit
(the whole of `main` aborts with that error, for every `model_type`); and
when both dimensions are multiples of 32 this assertion never fires. -/
theorem input_shape_assert_guard (a : Args) (cn : List String)
    (anchors : List (ℚ × ℚ)) (tl vl : List String) (ly : List Bool) :
    (¬(a.model_input_shape.1 % 32 = 0 ∧ a.model_input_shape.2 % 32 = 0) →
      mainRun a cn anchors tl vl ly =
        .error (.assertionError "model_input_shape should be multiples of 32"))
    ∧ ((a.model_input_shape.1 % 32 = 0 ∧ a.model_input_shape.2 % 32 = 0) →
      mainRun a cn anchors tl vl ly ≠
        .error (.assertionError "model_input_shape should be multiples of 32")) := by
  constructor
  · intro h
    simp only [mainRun]
    rw [if_neg h]
  · intro h32
    cases hv : selectedFamily a with
    | none =>
      simp only [mainRun]
      rw [if_pos h32, hv]
      simp
    | some v =>
      obtain ⟨fam, gen, tiny⟩ := v
      simp only [mainRun]
      rw [if_pos h32, hv]
      simp

/-- Helper: membership in a Python `insert(-1, x)` result. -/
theorem mem_insertBeforeLast {x y : α} (l : List α) :
    x ∈ insertBeforeLast l y ↔ x ∈ l ∨ x = y := by
  unfold insertBeforeLast
  constructor
  · intro h
    rcases List.mem_append.mp h with h | h
    · exact Or.inl (List.mem_of_mem_take h)
    · rcases List.mem_cons.mp h with h | h
      · exact Or.inr h
      · exact Or.inl (List.mem_of_mem_drop h)
  · intro h
    rcases h with h | h
    · have h' : x ∈ l.take (l.length - 1) ++ l.drop (l.length - 1) := by
        rw [List.take_append_drop]
        exact h
      rcases List.mem_append.mp h' with h'' | h''
      · exact List.mem_append.mpr (Or.inl h'')
      · exact List.mem_append.mpr (Or.inr (List.mem_cons_of_mem _ h''))
    · exact List.mem_append.mpr (Or.inr (List.mem_cons.mpr (Or.inl h)))

/-- Helper: after `insert(-1, x)` on a nonempty list, `x` sits immediately
before the last element. -/
theorem dropLast_getLast_insertBeforeLast (l : List α) (x : α) (h : l ≠ []) :
    (insertBeforeLast l x).dropLast.getLast? = some x := by
  have hdrop : l.drop (l.length - 1) = [l.getLast h] := by
    have hpos : 0 < l.length := List.length_pos.mpr h
    have hlt : l.length - 1 < l.length := by omega
    rw [List.drop_eq_getElem_cons hlt]
    have h1 : l.length - 1 + 1 = l.length := by omega
    rw [h1, List.drop_length]
    rw [List.getLast_eq_getElem]
  unfold insertBeforeLast
  rw [hdrop]
  rw [show l.take (l.length - 1) ++ x :: [l.getLast h] =
    (l.take (l.length - 1) ++ [x]) ++ [l.getLast h] by simp]
  rw [List.dropLast_concat, List.getLast?_concat]

/-- Helper: structural facts about the stage-one callback list, for every
combination of the flags that extend it: it contains exactly one
`reduce_lr` and exactly one `checkpoint`, never contains `avg_checkpoint`,
and always contains `early_stopping`. -/
theorem callbacksForFit1_facts (a : Args) :
    (callbacksForFit1 a).count Callback.reduce_lr = 1
    ∧ (callbacksForFit1 a).count Callback.checkpoint = 1
    ∧ Callback.avg_checkpoint ∉ callbacksForFit1 a
    ∧ Callback.early_stopping ∈ callbacksForFit1 a := by
  cases hq : a.quantize_aware_training <;> cases he : a.eval_online <;>
  cases hd : a.data_shuffle <;> cases hm : a.model_pruning <;>
    simp [callbacksForFit1, baseCallbacks, insertBeforeLast, hq, he, hd, hm]


/-- Helper: erasing the unique `checkpoint` from a list and inserting
`avg_checkpoint` before its last element removes `checkpoint` and places
`avg_checkpoint` immediately before the last callback. -/
theorem checkpoint_swap_for_average (X : List Callback)
    (hcnt : X.count Callback.checkpoint = 1)
    (hmem : Callback.early_stopping ∈ X) :
    Callback.checkpoint ∉
      insertBeforeLast (X.erase Callback.checkpoint) Callback.avg_checkpoint
    ∧ (insertBeforeLast (X.erase Callback.checkpoint)
        Callback.avg_checkpoint).dropLast.getLast? =
          some Callback.avg_checkpoint := by
  have hnotc : Callback.checkpoint ∉ X.erase Callback.checkpoint := by
    intro hmem'
    have hce := List.count_erase_self Callback.checkpoint X
    rw [hcnt] at hce
    exact absurd (List.count_pos_iff.mpr hmem') (by omega)
  have hne : X.erase Callback.checkpoint ≠ [] :=
    List.ne_nil_of_mem ((List.mem_erase_of_ne (by decide)).mpr hmem)
  constructor
  · rw [mem_insertBeforeLast]
    rintro (hmem' | hmem')
    · exact hnotc hmem'
    · exact absurd hmem' (by decide)
  · exact dropLast_getLast_insertBeforeLast _ _ hne

/-- C7: when `decay_type` or `average_type` is set, the optimizer used for
the fine-tune recompilation is rebuilt with `decay_steps =
max(1, num_train // batch_size) * (total_epoch - init_epoch -
transfer_epoch)`; `reduce_lr` is removed from the callback list exactly
when `decay_type` is set; `average_type` in `{ema, swa}` removes the
standard checkpoint and inserts the average checkpoint immediately before
the last callback; `lookahead` changes no callbacks; and when neither
option is set the second fit uses the same callbacks and optimizer as the
first. -/
theorem optimizer_and_callback_rebuild (a : Args) (nt : ℤ) :
    ((pyTruthyStr a.decay_type || pyTruthyStr a.average_type) = true →
      optimizerForFit2 a nt =
        { optName := a.optimizer
          lr := a.learning_rate
          average_type := a.average_type
          decay_type := a.decay_type
          decay_steps := some (max 1 (pyFloorDiv nt a.batch_size) *
            (a.total_epoch - a.init_epoch - a.transfer_epoch)) })
    ∧ ((pyTruthyStr a.decay_type || pyTruthyStr a.average_type) = false →
        optimizerForFit2 a nt = optimizer1 a
        ∧ callbacksForFit2 a = callbacksForFit1 a)
    ∧ (pyTruthyStr a.decay_type = true →
        Callback.reduce_lr ∉ callbacksForFit2 a)
    ∧ (pyTruthyStr a.decay_type = false →
        Callback.reduce_lr ∈ callbacksForFit2 a)
    ∧ ((a.average_type = some "ema" ∨ a.average_type = some "swa") →
        Callback.checkpoint ∉ callbacksForFit2 a
        ∧ (callbacksForFit2 a).dropLast.getLast? = some Callback.avg_checkpoint)
    ∧ (a.average_type = some "lookahead" →
        Callback.avg_checkpoint ∉ callbacksForFit2 a
        ∧ Callback.checkpoint ∈ callbacksForFit2 a) := by
  obtain ⟨hcnt_r, hcnt_c, hno_avg, hmem_es⟩ := callbacksForFit1_facts a
  have hmem_r : Callback.reduce_lr ∈ callbacksForFit1 a :=
    List.count_pos_iff.mp (by rw [hcnt_r]; omega)
  have hmem_c : Callback.checkpoint ∈ callbacksForFit1 a :=
    List.count_pos_iff.mp (by rw [hcnt_c]; omega)
  have hnot_r : Callback.reduce_lr ∉ (callbacksForFit1 a).erase Callback.reduce_lr := by
    intro hmem
    have hce := List.count_erase_self Callback.reduce_lr (callbacksForFit1 a)
    rw [hcnt_r] at hce
    exact absurd (List.count_pos_iff.mpr hmem) (by omega)
  refine ⟨fun h => ?_, fun h => ?_, fun h => ?_, fun h => ?_, fun h => ?_, fun h => ?_⟩
  · simp [optimizerForFit2, decayStepsOf, h]
  · constructor <;> simp [optimizerForFit2, callbacksForFit2, h]
  · have hor : (pyTruthyStr a.decay_type || pyTruthyStr a.average_type) = true := by
      simp [h]
    simp only [callbacksForFit2]
    rw [if_pos hor, if_pos h]
    by_cases hav : a.average_type = some "ema" ∨ a.average_type = some "swa"
    · rw [if_pos hav, mem_insertBeforeLast]
      rintro (hmem | hmem)
      · exact hnot_r (List.mem_of_mem_erase hmem)
      · exact absurd hmem (by decide)
    · rw [if_neg hav]
      exact hnot_r
  · by_cases hor : (pyTruthyStr a.decay_type || pyTruthyStr a.average_type) = true
    · simp only [callbacksForFit2]
      rw [if_pos hor]
      have hd' : ¬(pyTruthyStr a.decay_type = true) := by simp [h]
      by_cases hav : a.average_type = some "ema" ∨ a.average_type = some "swa"
      · rw [if_pos hav, if_neg hd', mem_insertBeforeLast]
        exact Or.inl ((List.mem_erase_of_ne (by decide)).mpr hmem_r)
      · rw [if_neg hav, if_neg hd']
        exact hmem_r
    · simp only [callbacksForFit2]
      rw [if_neg hor]
      exact hmem_r
  · have htr : pyTruthyStr a.average_type = true := by
      rcases h with h | h <;> rw [h] <;> rfl
    have hor : (pyTruthyStr a.decay_type || pyTruthyStr a.average_type) = true := by
      simp [htr]
    simp only [callbacksForFit2]
    rw [if_pos hor]
    by_cases hd : pyTruthyStr a.decay_type = true
    · rw [if_pos hd, if_pos h]
      exact checkpoint_swap_for_average _
        (by rw [List.count_erase_of_ne (by decide)]; exact hcnt_c)
        ((List.mem_erase_of_ne (by decide)).mpr hmem_es)
    · rw [if_neg hd, if_pos h]
      exact checkpoint_swap_for_average _ hcnt_c hmem_es
  · have htr : pyTruthyStr a.average_type = true := by rw [h]; rfl
    have hor : (pyTruthyStr a.decay_type || pyTruthyStr a.average_type) = true := by
      simp [htr]
    have hav : ¬(a.average_type = some "ema" ∨ a.average_type = some "swa") := by
      rw [h]
      rintro (hc | hc) <;> exact absurd hc (by decide)
    simp only [callbacksForFit2]
    rw [if_pos hor]
    by_cases hd : pyTruthyStr a.decay_type = true
    · rw [if_pos hd, if_neg hav]
      constructor
      · intro hmem
        exact hno_avg (List.mem_of_mem_erase hmem)
      · exact (List.mem_erase_of_ne (by decide)).mpr hmem_c
    · rw [if_neg hd, if_neg hav]
      exact ⟨hno_avg, hmem_c⟩

/-- The argparse defaults of `train.py` (lines 312-381) as a concrete
argument record, used to instantiate the theorems on concrete inputs. -/
def sampleArgs : Args :=
  { model_type := "yolo3_mobilenet_lite"
    model_input_shape := (416, 416)
    weights_path := none
    val_annotation_file := none
    val_split := 1/10
    batch_size := 16
    optimizer := "adam"
    learning_rate := 1/1000
    average_type := none
    decay_type := none
    transfer_epoch := 20
    freeze_level := none
    init_epoch := 0
    total_epoch := 250
    multiscale := false
    rescale_interval := 10
    enhance_augment := none
    label_smoothing := 0
    multi_anchor_assign := false
    elim_grid_sense := false
    data_shuffle := false
    gpu_num := 1
    model_pruning := false
    quantize_aware_training := false
    eval_online := false
    eval_epoch_interval := 10
    save_eval_checkpoint := false }

/-- Witness for the dispatch claim at concrete model-type strings. -/
theorem dispatch_by_model_type_order_witness :
    dispatchModelType "yolo3_mobilenet_lite" =
      some (.get_yolo3_train_model, .yolo3_data_generator_wrapper, false)
    ∧ dispatchModelType "tiny_yolo4_mobilenet" =
      some (.get_yolo3_train_model, .yolo3_data_generator_wrapper, true)
    ∧ dispatchModelType "yolo5_s" =
      some (.get_yolo5_train_model, .yolo5_data_generator_wrapper, false)
    ∧ dispatchModelType "tiny_yolo2_darknet" =
      some (.get_yolo2_train_model, .yolo2_data_generator_wrapper, false)
    ∧ selectedFamily sampleArgs =
        selectedFamily { sampleArgs with gpu_num := 4 } := by
  refine ⟨?_, ?_, ?_, ?_, ?_⟩
  · exact (dispatch_by_model_type_order "yolo3_mobilenet_lite" sampleArgs
      sampleArgs).2.1 (by decide) (by decide)
  · exact (dispatch_by_model_type_order "tiny_yolo4_mobilenet" sampleArgs
      sampleArgs).2.2.1 (by decide) (by decide) (by decide)
  · exact (dispatch_by_model_type_order "yolo5_s" sampleArgs sampleArgs).1
      (by decide)
  · exact (dispatch_by_model_type_order "tiny_yolo2_darknet" sampleArgs
      sampleArgs).2.2.2.1 (by decide) (by decide) (by decide) (by decide)
  · exact (dispatch_by_model_type_order "x" sampleArgs
      { sampleArgs with gpu_num := 4 }).2.2.2.2 rfl

/-- Witness for the dataset-split claim at concrete datasets. -/
theorem dataset_split_conservation_witness :
    (datasetSplit sampleArgs ["a", "b", "c"] []).2.2 =
        ⌊((["a", "b", "c"] : List String).length : ℚ) * sampleArgs.val_split⌋
    ∧ pyTake
        (datasetSplit { sampleArgs with val_annotation_file := some "val.txt" }
          ["a", "b"] ["c"]).1
        (datasetSplit { sampleArgs with val_annotation_file := some "val.txt" }
          ["a", "b"] ["c"]).2.1 = ["a", "b"] := by
  constructor
  · exact ((dataset_split_conservation sampleArgs ["a", "b", "c"] []).2.1
      (by decide) (by norm_num [sampleArgs])).1
  · exact ((dataset_split_conservation
      { sampleArgs with val_annotation_file := some "val.txt" }
      ["a", "b"] ["c"]).2.2 (by decide)).2.2.2.1

/-- Witness for the final-persistence claim at concrete flag settings. -/
theorem final_model_persistence_witness :
    (saveActions { sampleArgs with model_pruning := true } "logs/000").head? =
      some SaveAction.strip_pruning
    ∧ SaveAction.keras_save_model (osPathJoin "logs/000" "trained_last.h5") ∈
        saveActions { sampleArgs with quantize_aware_training := true } "logs/000"
    ∧ SaveAction.model_save (osPathJoin "logs/000" "trained_final.h5") ∈
        saveActions sampleArgs "logs/000" := by
  refine ⟨?_, ?_, ?_⟩
  · exact (final_model_persistence { sampleArgs with model_pruning := true }
      "logs/000").1 rfl
  · exact ((final_model_persistence
      { sampleArgs with quantize_aware_training := true } "logs/000").2.2.1 rfl).1
  · exact ((final_model_persistence sampleArgs "logs/000").2.2.2 rfl).1

/-- Witness for the unsupported-model-type claim at a concrete bad string. -/
theorem unsupported_model_type_error_witness :
    dispatchModelType "ssd_mobilenet" = none
    ∧ mainRun { sampleArgs with model_type := "ssd_mobilenet" } [] [] [] [] [] =
        .error (.valueError "Unsupported model type") := by
  constructor
  · decide
  · exact (unsupported_model_type_error
      { sampleArgs with model_type := "ssd_mobilenet" } [] [] [] [] []
      (by decide)).2.1 (by decide)

/-- Witness for the optimizer/callback-rebuild claim at concrete options. -/
theorem optimizer_and_callback_rebuild_witness :
    optimizerForFit2 { sampleArgs with decay_type := some "cosine" } 100 =
      { optName := "adam"
        lr := 1/1000
        average_type := none
        decay_type := some "cosine"
        decay_steps := some (max 1 (pyFloorDiv 100 16) * (250 - 0 - 20)) }
    ∧ Callback.reduce_lr ∉
        callbacksForFit2 { sampleArgs with decay_type := some "cosine" }
    ∧ Callback.checkpoint ∉
        callbacksForFit2 { sampleArgs with average_type := some "ema" }
    ∧ (callbacksForFit2
        { sampleArgs with average_type := some "ema" }).dropLast.getLast? =
          some Callback.avg_checkpoint
    ∧ callbacksForFit2 sampleArgs = callbacksForFit1 sampleArgs := by
  refine ⟨?_, ?_, ?_, ?_, ?_⟩
  · exact (optimizer_and_callback_rebuild
      { sampleArgs with decay_type := some "cosine" } 100).1 (by decide)
  · exact (optimizer_and_callback_rebuild
      { sampleArgs with decay_type := some "cosine" } 0).2.2.1 (by decide)
  · exact ((optimizer_and_callback_rebuild
      { sampleArgs with average_type := some "ema" } 0).2.2.2.2.1 (Or.inl rfl)).1
  · exact ((optimizer_and_callback_rebuild
      { sampleArgs with average_type := some "ema" } 0).2.2.2.2.1 (Or.inl rfl)).2
  · exact ((optimizer_and_callback_rebuild sampleArgs 0).2.1 (by decide)).2

/-- Witness for the multi-GPU-strategy claim at concrete GPU counts. -/
theorem multi_gpu_strategy_selection_witness :
    (buildStep { sampleArgs with gpu_num := 2 } [] 20 1 (optimizer1 sampleArgs)
        0).1 = some (devicesList 2)
    ∧ (devicesList ({ sampleArgs with gpu_num := 2 } : Args).gpu_num)[1]? =
        some ("/gpu:" ++ toString 1)
    ∧ devicesList 2 = ["/gpu:0", "/gpu:1"]
    ∧ (buildStep sampleArgs [] 20 1 (optimizer1 sampleArgs) 0).1 = none := by
  refine ⟨?_, ?_, by decide, ?_⟩
  · exact (multi_gpu_strategy_selection { sampleArgs with gpu_num := 2 } [] 20 1
      (optimizer1 sampleArgs) 0).1 (by decide)
  · exact (multi_gpu_strategy_selection { sampleArgs with gpu_num := 2 } [] 20 1
      (optimizer1 sampleArgs) 0).2.2.2.1 1 (by decide)
  · exact (multi_gpu_strategy_selection sampleArgs [] 20 1
      (optimizer1 sampleArgs) 0).2.1 (by decide)

/-- Witness for the input-shape-assert claim at concrete shapes. -/
theorem input_shape_assert_guard_witness :
    mainRun { sampleArgs with model_input_shape := (415, 416) } [] [] [] [] [] =
      .error (.assertionError "model_input_shape should be multiples of 32")
    ∧ mainRun sampleArgs [] [] [] [] [] ≠
      .error (.assertionError "model_input_shape should be multiples of 32") := by
  constructor
  · exact (input_shape_assert_guard
      { sampleArgs with model_input_shape := (415, 416) } [] [] [] [] []).1
      (by decide)
  · exact (input_shape_assert_guard sampleArgs [] [] [] [] []).2 (by decide)

/-- Witness for the freeze-level claim at concrete option settings. -/
theorem freeze_level_precedence_witness :
    freezeLevelOf { sampleArgs with weights_path := some "weights.h5" } = 0
    ∧ freezeLevelOf sampleArgs = 1
    ∧ freezeLevelOf
        { sampleArgs with weights_path := some "w.h5", freeze_level := some 2 }
          = 2 := by
  refine ⟨?_, ?_, ?_⟩
  · exact (freeze_level_precedence
      { sampleArgs with weights_path := some "weights.h5" }).2.1 rfl (by decide)
  · exact (freeze_level_precedence sampleArgs).2.2 rfl (by decide)
  · exact (freeze_level_precedence
      { sampleArgs with weights_path := some "w.h5", freeze_level := some 2 }).1
      2 rfl
